import Mathlib

/-
Shallow embedding of `python/paddle/distributed/auto_parallel/hepler.py`.

The file defines `ProxyLayer`, `BuildInfo` and `ProgramHelper`.  The host
framework pieces that the module merely calls (`paddle.jit.to_static`, the
wrapped user model, the loss function, the metric objects, the `to_list`
utility imported from `.utils`, and the `concrete_program` objects produced
by tracing) are kept abstract: they enter as type parameters and function
parameters.  Everything the module itself does — the per-field state
updates, the assertions, the cache check, the attribute binding — is
translated statement by statement.

Conventions of the embedding:
* `V` is the type of runtime variables/tensors; lists of them stand for the
  Python lists the module stores in its `*_vars` fields.
* `F` is the type of callable objects: the bound methods `_train`, `_eval`,
  `_predict` and the traced functions returned by `to_static`.
* `S` is the type of input specs (`inputs_spec` / `labels_spec`).
* Python attribute access `getattr(obj, '_' + mode)` / `setattr` on the
  proxy layer is modelled by a total function `funcs : String → F` read and
  pointwise-updated at the key `"_" ++ mode`; initially it is the class
  method table, a parameter of `ProxyLayer.init`.
* A Python function that can raise is modelled either as `Except String α`
  (when it mutates nothing, e.g. `static_func`) or as a pair
  `state × Option String` (for `build_program`, whose failing `assert`
  fires before any mutation, so the returned state is the input state).
-/

namespace Hepler

/-- The list `['train', 'eval', 'predict']` that the two assertions in
`ProgramHelper` test membership in. -/
def validModes : List String := ["train", "eval", "predict"]

/-- Embedding of class `BuildInfo` (`hepler.py`, lines 140-147): a single
`(mode, state)` pair. -/
structure BuildInfo where
  mode : Option String
  state : Bool

/-- `BuildInfo.__init__` with its default arguments `mode=None, state=False`. -/
def BuildInfo.init : BuildInfo :=
  { mode := none, state := false }

/-- `BuildInfo.has_cache(mode)`: `self.mode == mode and self.state is True`. -/
def BuildInfo.has_cache (b : BuildInfo) (m : String) : Bool :=
  (b.mode == some m) && b.state

/-- Embedding of the mutable state of class `ProxyLayer`
(`hepler.py`, lines 25-137): the three wrapped callables, the current mode,
the five generated-program variable lists, and the dynamic function
attributes (`_train` / `_eval` / `_predict` slots). -/
structure ProxyLayer (V F : Type) where
  inner_layer : List V → List V
  loss_func : Option (List V → List V)
  metrics : List (List V → List V)
  mode : Option String
  input_vars : List V
  label_vars : List V
  output_vars : List V
  loss_vars : List V
  metric_vars : List V
  funcs : String → F

namespace ProxyLayer

/-- `ProxyLayer.__init__(layer, loss_func, metrics)`.  `methods` is the
class's method table: what `getattr(self, '_' + mode)` resolves to before
any `setattr`. -/
def init (methods : String → F) (layer : List V → List V)
    (loss_func : Option (List V → List V)) (metrics : List (List V → List V)) :
    ProxyLayer V F :=
  { inner_layer := layer
    loss_func := loss_func
    metrics := metrics
    mode := none
    input_vars := []
    label_vars := []
    output_vars := []
    loss_vars := []
    metric_vars := []
    funcs := methods }

/-- `ProxyLayer._prepare(outputs, labels)`:
`return to_list(outputs) + to_list(labels)`.  `to_list` comes from the
repository's `.utils` module, which is not under `src/`; it is kept
abstract as the parameter `tl`. -/
def _prepare (tl : List V → List V) (outputs labels : List V) : List V :=
  tl outputs ++ tl labels

/-- `ProxyLayer.call_loss(inputs)` (`hepler.py`, lines 106-118):
`res = []`; `if self.loss_func is not None: res = self.loss_func(*inputs)`;
`return res`. -/
def call_loss (pl : ProxyLayer V F) (inputs : List V) : List V :=
  match pl.loss_func with
  | none => []
  | some f => f inputs

/-- `ProxyLayer.call_metrics(inputs)` (`hepler.py`, lines 120-133):
`outs = []`; `for metric in self.metrics: outs.extend(metric.compute(*inputs))`;
`return outs`. -/
def call_metrics (pl : ProxyLayer V F) (inputs : List V) : List V :=
  pl.metrics.foldl (fun outs metric => outs ++ metric inputs) []

/-- `ProxyLayer._train(inputs, labels)` (`hepler.py`, lines 48-64), statement
by statement: save feed variables, call `inner_layer`, compute `loss_vars`
via `call_loss`, compute `metric_vars` via `call_metrics`. -/
def _train (tl : List V → List V) (pl : ProxyLayer V F)
    (inputs labels : List V) : ProxyLayer V F :=
  let pl1 := { pl with input_vars := inputs, label_vars := labels }
  let pl2 := { pl1 with output_vars := pl1.inner_layer inputs }
  let new_inputs := _prepare tl pl2.output_vars labels
  let pl3 := { pl2 with loss_vars := pl2.call_loss new_inputs }
  { pl3 with metric_vars := pl3.call_metrics new_inputs }

/-- `ProxyLayer._eval(inputs, labels)` (`hepler.py`, lines 66-85), statement
by statement; the Python body is textually the same as `_train`'s. -/
def _eval (tl : List V → List V) (pl : ProxyLayer V F)
    (inputs labels : List V) : ProxyLayer V F :=
  let pl1 := { pl with input_vars := inputs, label_vars := labels }
  let pl2 := { pl1 with output_vars := pl1.inner_layer inputs }
  let new_inputs := _prepare tl pl2.output_vars labels
  let pl3 := { pl2 with loss_vars := pl2.call_loss new_inputs }
  { pl3 with metric_vars := pl3.call_metrics new_inputs }

/-- `ProxyLayer._predict(inputs)` (`hepler.py`, lines 87-95): save feed
variables, call `inner_layer`. -/
def _predict (pl : ProxyLayer V F) (inputs : List V) : ProxyLayer V F :=
  let pl1 := { pl with input_vars := inputs }
  { pl1 with output_vars := pl1.inner_layer inputs }

end ProxyLayer

/-- Embedding of the state of class `ProgramHelper`
(`hepler.py`, lines 150-244).  The logger is stateless and omitted. -/
structure ProgramHelper (V F S : Type) where
  proxy_layer : ProxyLayer V F
  inputs_spec : S
  labels_spec : S
  build_info : BuildInfo

namespace ProgramHelper

/-- `ProgramHelper.__init__(layer, loss_func, metrics, inputs_spec,
labels_spec)` (`hepler.py`, lines 155-164). -/
def init (methods : String → F) (layer : List V → List V)
    (loss_func : Option (List V → List V)) (metrics : List (List V → List V))
    (inputs_spec labels_spec : S) : ProgramHelper V F S :=
  { proxy_layer := ProxyLayer.init methods layer loss_func metrics
    inputs_spec := inputs_spec
    labels_spec := labels_spec
    build_info := BuildInfo.init }

/-- `ProgramHelper.static_func()` (`hepler.py`, lines 204-212):
assert that `proxy_layer.mode` is one of the valid modes, then return
`getattr(self.proxy_layer, '_' + self.proxy_layer.mode)`. -/
def static_func (h : ProgramHelper V F S) : Except String F :=
  match h.proxy_layer.mode with
  | some m =>
      if m ∈ validModes then Except.ok (h.proxy_layer.funcs ("_" ++ m))
      else Except.error "Please call build_program(mode) firstly."
  | none => Except.error "Please call build_program(mode) firstly."

/-- `ProgramHelper.build_program(mode)` (`hepler.py`, lines 166-189).
`to_static` is the abstract `paddle.jit.to_static` primitive, taking the
current mode function and the `input_spec` list.  The result pairs the
final helper state with `none` on success and `some` of the error message
when an assertion fires; the failing `assert` is the first statement, so
in that case the returned state is the input state.  The final
`getattr(...).concrete_program` access on line 189 only forces the lazy
tracing inside the framework-owned traced object and touches no field of
the helper, so it has no footprint in the state. -/
def build_program (to_static : F → List S → F) (h : ProgramHelper V F S)
    (mode : String) : ProgramHelper V F S × Option String :=
  if mode ∈ validModes then
    if h.build_info.has_cache mode then
      -- "Already build program with mode = ..., use cached program."
      (h, none)
    else
      let pl := { h.proxy_layer with mode := some mode }
      let input_spec :=
        if mode ≠ "predict" then [h.inputs_spec, h.labels_spec]
        else [h.inputs_spec]
      let h1 : ProgramHelper V F S := { h with proxy_layer := pl }
      match h1.static_func with
      | Except.error e => (h1, some e)
      | Except.ok f =>
          let sf := to_static f input_spec
          let func_name := "_" ++ mode
          ({ h1 with
              proxy_layer :=
                { pl with
                    funcs := fun n => if n = func_name then sf else pl.funcs n } },
            none)
  else (h, some "AssertionError")

/-- Property `ProgramHelper.concrete_program` (`hepler.py`, lines 214-216):
`self.static_func().concrete_program`.  Reading the `concrete_program`
attribute of a traced object is framework-owned; it is the abstract
parameter `cp`. -/
def concrete_program (cp : F → C) (h : ProgramHelper V F S) : Except String C :=
  (h.static_func).map cp

/-- Property `ProgramHelper.main_program` (`hepler.py`, lines 218-220):
`self.concrete_program.main_program`, with the attribute read abstract. -/
def main_program (cp : F → C) (mp : C → P) (h : ProgramHelper V F S) :
    Except String P :=
  (h.concrete_program cp).map mp

/-- Property `ProgramHelper.startup_program` (`hepler.py`, lines 222-224):
`self.concrete_program.startup_program`, with the attribute read abstract. -/
def startup_program (cp : F → C) (sp : C → P) (h : ProgramHelper V F S) :
    Except String P :=
  (h.concrete_program cp).map sp

end ProgramHelper

/-- A concrete method table for witness evaluation: each method slot holds
the length of its attribute name. -/
def sampleMethods : String → Nat := fun s => s.length

/-- A concrete stand-in for `paddle.jit.to_static` for witness evaluation,
injective enough to tell a traced slot from an untraced one. -/
def sampleToStatic : Nat → List Nat → Nat := fun f spec => f * 100 + spec.length

/-- A freshly constructed helper over `Nat` variables, with `inputs_spec = 7`
and `labels_spec = 9`, for witness evaluation. -/
def sampleHelper : ProgramHelper Nat Nat Nat :=
  ProgramHelper.init sampleMethods (fun l => l) none [] 7 9

/-- A concrete proxy layer with a loss function and two metrics, for
witness evaluation. -/
def samplePL : ProxyLayer Nat Nat :=
  ProxyLayer.init sampleMethods (fun l => l.map (fun v => v + 1))
    (some (fun l => [l.length])) [fun l => l, fun l => [l.length]]

variable {V F S C P : Type}

/-- Shared lemma: no statement of `build_program` assigns to
`self.build_info`, so the field is preserved on every control path. -/
theorem build_program_preserves_build_info (ts : F → List S → F)
    (h : ProgramHelper V F S) (m : String) :
    ((h.build_program ts m).1).build_info = h.build_info := by
  unfold ProgramHelper.build_program
  by_cases hv : m ∈ validModes
  · rw [if_pos hv]
    by_cases hc : h.build_info.has_cache m
    · simp only [hc, if_true]
    · simp only [Bool.not_eq_true] at hc
      simp only [hc, Bool.false_eq_true, if_false]
      split <;> rfl
  · rw [if_neg hv]

/-- Shared lemma: the equation of the successful, non-cached path of
`build_program`: set `proxy_layer.mode`, trace the current mode function
through `to_static` with the mode-dependent `input_spec`, and bind the
result to the attribute `'_' + mode`. -/
theorem build_program_eq (ts : F → List S → F) (h : ProgramHelper V F S)
    (m : String) (hv : m ∈ validModes)
    (hc : h.build_info.has_cache m = false) :
    h.build_program ts m =
      ({ h with
          proxy_layer :=
            { h.proxy_layer with
                mode := some m
                funcs := fun n =>
                  if n = "_" ++ m then
                    ts (h.proxy_layer.funcs ("_" ++ m))
                      (if m ≠ "predict" then [h.inputs_spec, h.labels_spec]
                       else [h.inputs_spec])
                  else h.proxy_layer.funcs n } }, none) := by
  unfold ProgramHelper.build_program ProgramHelper.static_func
  rw [if_pos hv]
  simp only [hc, Bool.false_eq_true, if_false, if_pos hv]

/-- C1: the claim says a successful `build_program(mode)` populates the
per-mode cache, so that an immediately following call sees
`has_cache(mode)` true and returns early.  The code never writes
`build_info`: every path of `build_program` preserves it, and on the
fresh helper, right after building `'train'`, the cache check for
`'train'` still evaluates to `false` — the second call re-traces. -/
theorem build_program_never_populates_cache :
    (∀ (V F S : Type) (ts : F → List S → F) (h : ProgramHelper V F S)
        (m : String), ((h.build_program ts m).1).build_info = h.build_info) ∧
    ((sampleHelper.build_program sampleToStatic "train").1).build_info.has_cache
        "train" = false :=
  ⟨fun _ _ _ ts h m => build_program_preserves_build_info ts h m, by decide⟩

/-- C2: for any argument outside `['train', 'eval', 'predict']`,
`build_program` fails on its first statement — the assertion — and the
helper state it hands back is exactly the input state: `build_info`,
`proxy_layer.mode` and the mode-function attributes are untouched. -/
theorem build_program_invalid_mode (ts : F → List S → F)
    (h : ProgramHelper V F S) (m : String) (hm : m ∉ validModes) :
    h.build_program ts m = (h, some "AssertionError") := by
  unfold ProgramHelper.build_program
  rw [if_neg hm]

theorem build_program_invalid_mode_witness :
    "foo" ∉ validModes ∧
      sampleHelper.build_program sampleToStatic "foo" =
        (sampleHelper, some "AssertionError") :=
  ⟨by decide,
    build_program_invalid_mode sampleToStatic sampleHelper "foo" (by decide)⟩

/-- C3 counterexample: the claim says that after successfully building
`'train'` and then `'eval'`, `has_cache('train')` is still true.  On the
fresh helper the code gives `false`. -/
theorem cache_not_per_mode_cex :
    ((((sampleHelper.build_program sampleToStatic "train").1).build_program
        sampleToStatic "eval").1).build_info.has_cache "train" = false := by
  decide

/-- C3 (amended): `BuildInfo` is a single `(mode, state)` pair, not one flag
per mode, and `build_program` never updates it; after building for `m1` and
then for `m2` the `build_info` equals the initial one, so `has_cache m1` is
left at its initial value `false` rather than `true`. -/
theorem build_info_constant_two_builds (ts : F → List S → F)
    (h : ProgramHelper V F S) (m1 m2 : String) :
    ((((h.build_program ts m1).1).build_program ts m2).1).build_info
      = h.build_info := by
  rw [build_program_preserves_build_info, build_program_preserves_build_info]

/-- C4: on a valid mode with no cache hit, `build_program` sets
`proxy_layer.mode` to the mode, delegates tracing to `to_static` applied to
the current mode function, with `input_spec = [inputs_spec, labels_spec]`
when the mode is `'train'` or `'eval'` and `[inputs_spec]` when it is
`'predict'`, binds the traced function to the attribute named `'_' + mode`,
and raises nothing. -/
theorem build_program_delegates (ts : F → List S → F)
    (h : ProgramHelper V F S) (m : String) (hv : m ∈ validModes)
    (hc : h.build_info.has_cache m = false) :
    ((h.build_program ts m).1).proxy_layer.mode = some m ∧
    ((m = "train" ∨ m = "eval") →
      ((h.build_program ts m).1).proxy_layer.funcs ("_" ++ m)
        = ts (h.proxy_layer.funcs ("_" ++ m))
            [h.inputs_spec, h.labels_spec]) ∧
    (m = "predict" →
      ((h.build_program ts m).1).proxy_layer.funcs ("_" ++ m)
        = ts (h.proxy_layer.funcs ("_" ++ m)) [h.inputs_spec]) ∧
    (h.build_program ts m).2 = none := by
  rw [build_program_eq ts h m hv hc]
  refine ⟨rfl, ?_, ?_, rfl⟩
  · rintro (rfl | rfl) <;> simp
  · rintro rfl
    simp

theorem build_program_delegates_witness :
    "train" ∈ validModes ∧
      sampleHelper.build_info.has_cache "train" = false ∧
      ((sampleHelper.build_program sampleToStatic "train").1).proxy_layer.mode
        = some "train" ∧
      ((sampleHelper.build_program sampleToStatic "train").1).proxy_layer.funcs
          ("_" ++ "train")
        = sampleToStatic (sampleHelper.proxy_layer.funcs ("_" ++ "train"))
            [sampleHelper.inputs_spec, sampleHelper.labels_spec] :=
  ⟨by decide, by decide,
    (build_program_delegates sampleToStatic sampleHelper "train" (by decide)
        (by decide)).1,
    (build_program_delegates sampleToStatic sampleHelper "train" (by decide)
        (by decide)).2.1 (Or.inl rfl)⟩

/-- C5: while `proxy_layer.mode` is not one of `'train'`, `'eval'`,
`'predict'` — in particular on a fresh helper, before any successful
`build_program` — `static_func`, and through it the `concrete_program`,
`main_program` and `startup_program` properties, fail with the assertion
message; after a successful `build_program(mode)`, `static_func` returns
the proxy layer's attribute named `'_' + mode`. -/
theorem static_func_spec :
    (∀ (h : ProgramHelper V F S) (cp : F → C) (mp sp : C → P),
      (∀ m ∈ validModes, h.proxy_layer.mode ≠ some m) →
        h.static_func
            = Except.error "Please call build_program(mode) firstly." ∧
          h.concrete_program cp
            = Except.error "Please call build_program(mode) firstly." ∧
          h.main_program cp mp
            = Except.error "Please call build_program(mode) firstly." ∧
          h.startup_program cp sp
            = Except.error "Please call build_program(mode) firstly.") ∧
    (∀ (ts : F → List S → F) (h : ProgramHelper V F S) (m : String),
      m ∈ validModes → h.build_info.has_cache m = false →
        ((h.build_program ts m).1).static_func
          = Except.ok
              (((h.build_program ts m).1).proxy_layer.funcs ("_" ++ m))) := by
  constructor
  · intro h cp mp sp hm
    have hsf : h.static_func
        = Except.error "Please call build_program(mode) firstly." := by
      unfold ProgramHelper.static_func
      cases hmode : h.proxy_layer.mode with
      | none => rfl
      | some m =>
        dsimp only
        rw [if_neg]
        intro hv
        exact hm m hv hmode
    have hcp : h.concrete_program cp
        = Except.error "Please call build_program(mode) firstly." := by
      unfold ProgramHelper.concrete_program
      rw [hsf]
      rfl
    have hmp : h.main_program cp mp
        = Except.error "Please call build_program(mode) firstly." := by
      unfold ProgramHelper.main_program
      rw [hcp]
      rfl
    have hsp : h.startup_program cp sp
        = Except.error "Please call build_program(mode) firstly." := by
      unfold ProgramHelper.startup_program
      rw [hcp]
      rfl
    exact ⟨hsf, hcp, hmp, hsp⟩
  · intro ts h m hv hc
    rw [build_program_eq ts h m hv hc]
    unfold ProgramHelper.static_func
    simp [if_pos hv]

theorem static_func_spec_witness :
    sampleHelper.static_func
        = Except.error "Please call build_program(mode) firstly." ∧
      ((sampleHelper.build_program sampleToStatic "train").1).static_func
        = Except.ok
            (((sampleHelper.build_program
                sampleToStatic "train").1).proxy_layer.funcs ("_" ++ "train")) :=
  ⟨((@static_func_spec Nat Nat Nat Nat Nat).1 sampleHelper (fun c => c)
      (fun c => c) (fun c => c) (by decide)).1,
    (@static_func_spec Nat Nat Nat Nat Nat).2 sampleToStatic sampleHelper
      "train" (by decide) (by decide)⟩

/-- C6: `ProgramHelper.__init__` wraps the user model, loss function and
metrics unchanged into the proxy layer, starts with `mode = None`, all five
generated-variable lists empty, and a cold cache for every mode. -/
theorem program_helper_init_spec (methods : String → F)
    (layer : List V → List V) (loss_func : Option (List V → List V))
    (metrics : List (List V → List V)) (inputs_spec labels_spec : S) :
    let h : ProgramHelper V F S :=
      ProgramHelper.init methods layer loss_func metrics inputs_spec labels_spec
    h.proxy_layer.inner_layer = layer ∧
    h.proxy_layer.loss_func = loss_func ∧
    h.proxy_layer.metrics = metrics ∧
    h.proxy_layer.mode = none ∧
    h.proxy_layer.input_vars = [] ∧
    h.proxy_layer.label_vars = [] ∧
    h.proxy_layer.output_vars = [] ∧
    h.proxy_layer.loss_vars = [] ∧
    h.proxy_layer.metric_vars = [] ∧
    ∀ m : String, h.build_info.has_cache m = false :=
  ⟨rfl, rfl, rfl, rfl, rfl, rfl, rfl, rfl, rfl, fun _ => rfl⟩

/-- C7: graph construction is deterministic and synchronous: two executions
of `build_program(mode)` from identical helper states (same wrapped layer,
loss function, metrics and specs) with the same tracing primitive produce
identical results. -/
theorem build_program_deterministic (ts : F → List S → F)
    (h1 h2 : ProgramHelper V F S) (m : String) (hh : h1 = h2) :
    h1.build_program ts m = h2.build_program ts m := by rw [hh]

theorem build_program_deterministic_witness :
    sampleHelper.build_program sampleToStatic "train"
      = sampleHelper.build_program sampleToStatic "train" :=
  build_program_deterministic sampleToStatic sampleHelper sampleHelper "train" rfl

/-- C8: `_train` and `_eval` are behaviourally equivalent: their bodies
perform the same sequence of steps (save inputs and labels, call
`inner_layer`, compute `loss_vars` via `call_loss`, compute `metric_vars`
via `call_metrics`), so from any starting state and any pair of inputs and
labels they produce the same resulting state. -/
theorem train_eq_eval (tl : List V → List V) (pl : ProxyLayer V F)
    (inputs labels : List V) :
    pl._train tl inputs labels = pl._eval tl inputs labels := rfl

/-- C9: `_predict` updates only `input_vars` and `output_vars`:
`label_vars`, `loss_vars`, `metric_vars`, `loss_func`, `metrics`, `mode`
and the function attributes are unchanged, and loss and metric computation
is never invoked — the result is the same whatever `loss_func` and
`metrics` hold. -/
theorem predict_frame (pl : ProxyLayer V F) (inputs : List V)
    (lf : Option (List V → List V)) (ms : List (List V → List V)) :
    (pl._predict inputs).label_vars = pl.label_vars ∧
    (pl._predict inputs).loss_vars = pl.loss_vars ∧
    (pl._predict inputs).metric_vars = pl.metric_vars ∧
    (pl._predict inputs).loss_func = pl.loss_func ∧
    (pl._predict inputs).metrics = pl.metrics ∧
    (pl._predict inputs).mode = pl.mode ∧
    (pl._predict inputs).funcs = pl.funcs ∧
    ({ pl with loss_func := lf, metrics := ms } : ProxyLayer V F)._predict inputs
      = { pl._predict inputs with loss_func := lf, metrics := ms } :=
  ⟨rfl, rfl, rfl, rfl, rfl, rfl, rfl, rfl⟩

/-- Shared lemma: the `extend` loop of `call_metrics` appends each metric's
results to the accumulator in list order. -/
theorem foldl_append_eq_flatten (inputs : List V)
    (ms : List (List V → List V)) (acc : List V) :
    ms.foldl (fun outs metric => outs ++ metric inputs) acc
      = acc ++ (ms.map (fun metric => metric inputs)).flatten := by
  induction ms generalizing acc with
  | nil => simp
  | cons m rest ih => simp [ih, List.append_assoc]

/-- C10: `call_loss` returns the empty list when `loss_func` is `None` and
otherwise applies `loss_func` to the inputs; `call_metrics` returns the
concatenation, in list order, of each metric's results on the inputs, and
in particular the empty list when the metrics list is empty. -/
theorem call_loss_call_metrics_spec (pl : ProxyLayer V F) (inputs : List V) :
    (pl.loss_func = none → pl.call_loss inputs = []) ∧
    (∀ f, pl.loss_func = some f → pl.call_loss inputs = f inputs) ∧
    pl.call_metrics inputs
      = (pl.metrics.map (fun metric => metric inputs)).flatten ∧
    (pl.metrics = [] → pl.call_metrics inputs = []) := by
  refine ⟨?_, ?_, ?_, ?_⟩
  · intro hn
    unfold ProxyLayer.call_loss
    rw [hn]
  · intro f hf
    unfold ProxyLayer.call_loss
    rw [hf]
  · unfold ProxyLayer.call_metrics
    simpa using foldl_append_eq_flatten inputs pl.metrics []
  · intro hm
    unfold ProxyLayer.call_metrics
    rw [hm]
    rfl

theorem call_loss_call_metrics_spec_witness :
    (sampleHelper.proxy_layer.call_loss [1, 2] = [] ∧
      sampleHelper.proxy_layer.call_metrics [1, 2] = []) ∧
      samplePL.call_loss [5, 6] = [2] ∧
      samplePL.call_metrics [5, 6] = [5, 6, 2] :=
  ⟨⟨(call_loss_call_metrics_spec sampleHelper.proxy_layer [1, 2]).1 rfl,
      (call_loss_call_metrics_spec sampleHelper.proxy_layer [1, 2]).2.2.2 rfl⟩,
    (call_loss_call_metrics_spec samplePL [5, 6]).2.1 _ rfl,
    by
      have h := (call_loss_call_metrics_spec samplePL [5, 6]).2.2.1
      simpa using h⟩

end Hepler
